import Mathlib

/-!
Shallow embedding of the RecyWise wizard (src/frontend/src/App.jsx).

The app is a single React component holding session state in `useState`
hooks: `screen` (1..9), `isLoading`, `errorMsg`, `vin`, `vehicleData`,
`materials`, `pathway`.  User interactions and the completions of the two
axios calls (`decode_vin`, `generate_pathway`) are the events; each event's
guard is read off the rendered screen (which buttons exist and when they
are disabled) and its effect is the body of the corresponding handler.

JavaScript values appearing in form fields are modelled by `JsVal`
(a string or a number); JS falsiness on such a value (`!vehicleData.year`)
is `JsVal.falsy`.  Numbers are modelled as `Rat`.  Outstanding network
requests are a list `pending`; a completion event removes the first
matching request and applies the handler's continuation (`then`/`catch`
plus `finally`), with the response chosen by the environment.

The transient empty-string state of a material input between `onChange`
and `onBlur` (App.jsx lines 454-461) is not modelled: `onBlur` coerces it
back to a number before the value can be consumed, as the spec notes
("coerced to 0 on losing focus if unparsable"); `Event.setMaterial` stores
the post-blur numeric value.
-/

/-- JavaScript value held in a form field: a string or a number. -/
inductive JsVal : Type
  | str (s : String)
  | num (n : Rat)
deriving DecidableEq, Repr

/-- JS falsiness for the values that can sit in a vehicle field:
the empty string and the number 0 are falsy. -/
def JsVal.falsy : JsVal → Bool
  | .str s => s = ""
  | .num n => n = 0

/-- The `vehicleData` record `{ year, make, model }` (App.jsx line 116). -/
structure Vehicle : Type where
  year : JsVal
  make : JsVal
  model : JsVal
deriving DecidableEq, Repr

/-- The `materials` record with its six fixed keys (App.jsx line 122). -/
structure Materials : Type where
  steel : Rat
  aluminum : Rat
  copper : Rat
  plastics : Rat
  rubber : Rat
  glass : Rat
deriving DecidableEq, Repr

/-- The six material keys, used by the screen-7 editable table. -/
inductive MatKey : Type
  | steel | aluminum | copper | plastics | rubber | glass
deriving DecidableEq, Repr

/-- Update one material value, the effect of editing one row of the
screen-7 table (App.jsx lines 448-463). -/
def Materials.set (m : Materials) : MatKey → Rat → Materials
  | .steel, v => { m with steel := v }
  | .aluminum, v => { m with aluminum := v }
  | .copper, v => { m with copper := v }
  | .plastics, v => { m with plastics := v }
  | .rubber, v => { m with rubber := v }
  | .glass, v => { m with glass := v }

/-- One entry of the pathway response `{sequence, action, projected_profit}`
(App.jsx lines 512-521). -/
structure PathStep : Type where
  sequence : Nat
  action : String
  projected_profit : Rat
deriving DecidableEq, Repr

/-- An outstanding network request: a VIN decode (`GET decode_vin/{vin}`,
App.jsx line 143) or a pathway generation (`POST generate_pathway` with the
vehicle/materials payload, App.jsx lines 179-184). -/
inductive Req : Type
  | vinDecode (vin : String)
  | genPathway (vehicle : Vehicle) (materials : Materials)
deriving DecidableEq, Repr

/-- Whether a request is a VIN decode. -/
def Req.isDecode : Req → Bool
  | .vinDecode _ => true
  | .genPathway _ _ => false

/-- Whether a request is a pathway generation. -/
def Req.isGen : Req → Bool
  | .vinDecode _ => false
  | .genPathway _ _ => true

/-- Remove the first element satisfying `p` (the completing request). -/
def removeFirst (p : Req → Bool) : List Req → List Req
  | [] => []
  | r :: rs => if p r then rs else r :: removeFirst p rs

/-- The session state: the values of the `useState` hooks of `App`
(App.jsx lines 111-131) together with the outstanding requests. -/
structure AppState : Type where
  screen : Int
  isLoading : Bool
  errorMsg : String
  vin : String
  vehicleData : Vehicle
  materials : Materials
  pathway : Option (List PathStep)
  pending : List Req
deriving DecidableEq, Repr

/-- The initial state (App.jsx lines 111-131): screen 1, not loading, no
error, empty VIN, empty vehicle fields, zeroed materials, no pathway. -/
def init : AppState :=
  { screen := 1
    isLoading := false
    errorMsg := ""
    vin := ""
    vehicleData := { year := .str "", make := .str "", model := .str "" }
    materials :=
      { steel := 0, aluminum := 0, copper := 0
        plastics := 0, rubber := 0, glass := 0 }
    pathway := none
    pending := [] }

/-- The VIN-submit button's `disabled` expression
`isLoading || vin.length < 5` (App.jsx line 251). -/
def vinSubmitDisabled (s : AppState) : Bool :=
  s.isLoading || s.vin.length < 5

/-- Whether the Back button is rendered: `Container` shows it exactly when
`screen > 1` (App.jsx line 79), and `Container` is used by screens 2..9
(the landing screen 1 and the unknown-screen fallback render no Back). -/
def backShown (s : AppState) : Bool :=
  2 ≤ s.screen && s.screen ≤ 9

/-- JavaScript's `toUpperCase()` on a VIN string, mapped over the
characters (App.jsx line 241). -/
def jsToUpper (s : String) : String :=
  ⟨s.data.map Char.toUpper⟩

/-- Events: the user interactions offered by `renderScreen` plus the four
network-completion continuations of `handleVinSubmit` and
`handleGeneratePathway`.  Responses are environment-chosen data carried by
the completion events. -/
inductive Event : Type
  | back
  | startWizard
  | setVin (v : String)
  | submitVin
  | vinSuccess (payload : Vehicle)
  | vinFailure
  | setYear (v : String)
  | setMake (v : String)
  | setModel (v : String)
  | submitManualVehicle
  | confirmYes
  | confirmNo
  | chooseAI
  | chooseManual
  | generate
  | editValues
  | setMaterial (k : MatKey) (v : Rat)
  | saveMaterials
  | processNext
  | genSuccess (payload : List PathStep)
  | genFailure
deriving DecidableEq, Repr

/-- Whether an event is a user interaction (as opposed to the completion
of an outstanding network request). -/
def Event.isUser : Event → Bool
  | .vinSuccess _ => false
  | .vinFailure => false
  | .genSuccess _ => false
  | .genFailure => false
  | _ => true

/-- One transition of the wizard.  `none` means the event is not enabled in
state `s` (the control is not rendered, or is disabled, or no matching
request is outstanding).  Each branch is read off App.jsx:

* `back`: `BackButton` does `setScreen(prev => prev - 1)` (line 62) and is
  rendered by `Container` iff `screen > 1` (line 79); screens 2..9 all use
  `Container` (screen 8 included, line 484).
* `startWizard`: screen 1's button does `setScreen(2)` (line 220).
* `setVin`: the screen-2 input stores `e.target.value.toUpperCase()`
  (line 241) with `maxLength={17}` (line 244).
* `submitVin`: the button (line 250) is disabled iff
  `isLoading || vin.length < 5`; `handleVinSubmit` (line 137) synchronously
  sets `isLoading := true`, `errorMsg := ''` and issues the decode request.
* `vinSuccess`/`vinFailure`: the `try`/`catch`/`finally` continuation of
  `handleVinSubmit` (lines 145-159).
* `setYear`/`setMake`/`setModel`: the screen-3 inputs (lines 272-299).
* `submitManualVehicle`: `handleManualVehicleSubmit` (lines 162-169).
* `confirmYes`/`confirmNo`: the screen-4 buttons (lines 328, 335).
* `chooseAI`: the screen-5 AI option has `onClick={() => {}}` (line 356).
* `chooseManual`: the screen-5 manual option does `setScreen(7)` (line 368).
* `generate`: `handleGeneratePathway` (line 175) sets `screen := 8` and
  issues the request with payload `{vehicle: vehicleData, materials}`.
* `editValues`: screen-6 button does `setScreen(7)` (line 420).
* `setMaterial`: one row edit of the screen-7 table (lines 448-463).
* `saveMaterials`: `handleSaveManualMaterials` does `setScreen(6)`
  (lines 171-173).
* `processNext`: screen-9 button does `setScreen(1)` (line 535).
* `genSuccess`/`genFailure`: the `try`/`catch` continuation of
  `handleGeneratePathway` (lines 184-192). -/
def step (s : AppState) : Event → Option AppState
  | .back =>
      if 2 ≤ s.screen ∧ s.screen ≤ 9 then
        some { s with screen := s.screen - 1 }
      else none
  | .startWizard =>
      if s.screen = 1 then some { s with screen := 2 } else none
  | .setVin v =>
      if s.screen = 2 ∧ v.length ≤ 17 then
        some { s with vin := jsToUpper v }
      else none
  | .submitVin =>
      if s.screen = 2 ∧ vinSubmitDisabled s = false then
        some { s with isLoading := true, errorMsg := ""
                      pending := s.pending ++ [.vinDecode s.vin] }
      else none
  | .vinSuccess payload =>
      if s.pending.any Req.isDecode then
        some { s with vehicleData := payload, screen := 4
                      isLoading := false
                      pending := removeFirst Req.isDecode s.pending }
      else none
  | .vinFailure =>
      if s.pending.any Req.isDecode then
        some { s with screen := 3, isLoading := false
                      pending := removeFirst Req.isDecode s.pending }
      else none
  | .setYear v =>
      if s.screen = 3 then
        some { s with vehicleData := { s.vehicleData with year := .str v } }
      else none
  | .setMake v =>
      if s.screen = 3 then
        some { s with vehicleData := { s.vehicleData with make := .str v } }
      else none
  | .setModel v =>
      if s.screen = 3 then
        some { s with vehicleData := { s.vehicleData with model := .str v } }
      else none
  | .submitManualVehicle =>
      if s.screen = 3 then
        if s.vehicleData.year.falsy || s.vehicleData.make.falsy
            || s.vehicleData.model.falsy then
          some { s with errorMsg := "Please fill in all fields." }
        else
          some { s with errorMsg := "", screen := 4 }
      else none
  | .confirmYes =>
      if s.screen = 4 then some { s with screen := 5 } else none
  | .confirmNo =>
      if s.screen = 4 then some { s with vin := "", screen := 2 } else none
  | .chooseAI =>
      if s.screen = 5 then some s else none
  | .chooseManual =>
      if s.screen = 5 then some { s with screen := 7 } else none
  | .generate =>
      if s.screen = 6 then
        some { s with screen := 8
                      pending :=
                        s.pending ++ [.genPathway s.vehicleData s.materials] }
      else none
  | .editValues =>
      if s.screen = 6 then some { s with screen := 7 } else none
  | .setMaterial k v =>
      if s.screen = 7 then
        some { s with materials := s.materials.set k v }
      else none
  | .saveMaterials =>
      if s.screen = 7 then some { s with screen := 6 } else none
  | .processNext =>
      if s.screen = 9 then some { s with screen := 1 } else none
  | .genSuccess payload =>
      if s.pending.any Req.isGen then
        some { s with pathway := some payload, screen := 9
                      pending := removeFirst Req.isGen s.pending }
      else none
  | .genFailure =>
      if s.pending.any Req.isGen then
        some { s with errorMsg := "Failed to generate pathway.", screen := 6
                      pending := removeFirst Req.isGen s.pending }
      else none

/-- Run a list of events from a state, failing if any event is disabled. -/
def run (s : AppState) : List Event → Option AppState
  | [] => some s
  | e :: es => (step s e).bind (fun t => run t es)

/-- States reachable from the initial state by enabled events. -/
inductive Reachable : AppState → Prop
  | base : Reachable init
  | tail {s t : AppState} {e : Event} :
      Reachable s → step s e = some t → Reachable t

/-- The total displayed net profit on screen 9:
`pathway.reduce((sum, step) => sum + step.projected_profit, 0)`
(App.jsx line 530). -/
def totalProfit (p : List PathStep) : Rat :=
  p.foldl (fun sum st => sum + st.projected_profit) 0

/-- Number of outstanding VIN-decode requests. -/
def decodeCount (s : AppState) : Nat :=
  s.pending.countP Req.isDecode

/-- Number of outstanding pathway-generation requests. -/
def genCount (s : AppState) : Nat :=
  s.pending.countP Req.isGen

/-- Example decoded vehicle used in concrete runs (spec §8 property 6). -/
def exVehicle : Vehicle :=
  { year := .num 2015, make := .str "Toyota", model := .str "Camry" }

/-- Example material composition used in concrete runs (spec §8 property 6). -/
def exMaterials : Materials :=
  { steel := 60, aluminum := 10, copper := 5
    plastics := 15, rubber := 5, glass := 5 }

/-- Example gateway pathway response used in concrete runs: 120.50 and
-30.00 written as rationals (spec §8 property 6). -/
def exPathway : List PathStep :=
  [ { sequence := 1, action := "Dismantle", projected_profit := 241/2 },
    { sequence := 2, action := "Shred", projected_profit := -30 } ]

/-- A concrete run from the landing page to the screen-6 composition
review: start, type a VIN, submit it, receive a successful decode, confirm
the vehicle, choose manual composition, fill in the six values, save. -/
def toScreen6 : List Event :=
  [.startWizard, .setVin "1HGBH41JXMN109186", .submitVin,
   .vinSuccess exVehicle, .confirmYes, .chooseManual,
   .setMaterial .steel 60, .setMaterial .aluminum 10,
   .setMaterial .copper 5, .setMaterial .plastics 15,
   .setMaterial .rubber 5, .setMaterial .glass 5,
   .saveMaterials]

lemma run_append (es fs : List Event) :
    ∀ s : AppState, run s (es ++ fs) = (run s es).bind (fun t => run t fs) := by
  induction es with
  | nil => intro s; simp [run]
  | cons e es ih =>
      intro s
      simp only [List.cons_append, run]
      cases step s e with
      | none => simp
      | some t => simp [ih]

lemma reachable_of_run {s t : AppState} {es : List Event}
    (hs : Reachable s) (h : run s es = some t) : Reachable t := by
  induction es generalizing s with
  | nil =>
      simp only [run] at h
      cases h
      exact hs
  | cons e es ih =>
      simp only [run] at h
      cases hstep : step s e with
      | none => simp [hstep] at h
      | some u =>
          rw [hstep] at h
          exact ih (Reachable.tail hs hstep) h

lemma countP_pos_of_any {p : Req → Bool} {l : List Req}
    (h : l.any p = true) : 0 < l.countP p := by
  rw [List.any_eq_true] at h
  rcases h with ⟨a, ha, hpa⟩
  exact List.countP_pos_iff.mpr ⟨a, ha, hpa⟩

lemma countP_removeFirst_self (p : Req → Bool) :
    ∀ l : List Req, l.any p = true →
      (removeFirst p l).countP p = l.countP p - 1 := by
  intro l
  induction l with
  | nil => simp
  | cons r rs ih =>
      intro h
      by_cases hp : p r
      · simp [removeFirst, hp, List.countP_cons]
      · have hany : rs.any p = true := by
          simp only [List.any_cons, Bool.or_eq_true] at h
          rcases h with h | h
          · exact absurd h hp
          · exact h
        simp [removeFirst, hp, List.countP_cons, ih hany]

lemma countP_removeFirst_other (p q : Req → Bool)
    (hpq : ∀ r, p r = true → q r = false) :
    ∀ l : List Req, (removeFirst p l).countP q = l.countP q := by
  intro l
  induction l with
  | nil => simp [removeFirst]
  | cons r rs ih =>
      by_cases hp : p r
      · simp [removeFirst, hp, List.countP_cons, hpq r hp]
      · simp [removeFirst, hp, List.countP_cons, ih]

lemma step_screen_bounds {s t : AppState} {e : Event}
    (h : step s e = some t) : 1 ≤ t.screen ∧ t.screen ≤ 9 := by
  cases e <;> simp only [step] at h <;> split_ifs at h <;>
    (try cases h) <;> simp_all <;> omega

/-- C1: every reachable state (from the initial Step=1 state) has its Step
value within 1..9; in particular Back, offered only when `screen > 1`, can
never drive it below 1, and no transition targets a value above 9. -/
theorem c1_screen_in_range (s : AppState) (h : Reachable s) :
    1 ≤ s.screen ∧ s.screen ≤ 9 := by
  induction h with
  | base => simp [init]
  | tail _ hstep _ => exact step_screen_bounds hstep

/-- Witness for C1 at the initial state. -/
theorem c1_screen_in_range_witness :
    1 ≤ init.screen ∧ init.screen ≤ 9 :=
  c1_screen_in_range init Reachable.base

/-- The state on the VIN-entry screen with a full 17-character VIN typed. -/
def exScreen2 : AppState :=
  { init with screen := 2, vin := "1HGBH41JXMN109186" }

/-- The state right after submitting the VIN from `exScreen2`. -/
def exDecodePending : AppState :=
  (step exScreen2 Event.submitVin).getD init

/-- The state right after the decode of `exDecodePending` succeeds. -/
def exAfterDecode : AppState :=
  (step exDecodePending (Event.vinSuccess exVehicle)).getD init

/-- The manual-entry screen with all vehicle fields still empty. -/
def exScreen3 : AppState :=
  { init with screen := 3 }

/-- The state reached by the concrete run `toScreen6`. -/
def exScreen6 : AppState :=
  (run init toScreen6).getD init

/-- The loading screen reached by generating a pathway from `exScreen6`. -/
def exScreen8 : AppState :=
  (step exScreen6 Event.generate).getD init

/-- C2: submitting a VIN of length ≥ 5 is accepted whenever no decode is in
flight, and a successful decode with payload `{year, make, model}` always
lands on Step 4 with `vehicleData` equal to that payload. -/
theorem c2_vin_decode_success (s : AppState) (payload : Vehicle) :
    (s.screen = 2 → s.isLoading = false → 5 ≤ s.vin.length →
      (step s Event.submitVin).isSome = true)
    ∧ (∀ t : AppState, step s (Event.vinSuccess payload) = some t →
        t.screen = 4 ∧ t.vehicleData = payload) := by
  constructor
  · intro h2 hload hlen
    simp [step, vinSubmitDisabled, h2, hload]
    omega
  · intro t h
    simp only [step] at h
    split_ifs at h
    cases h
    simp

/-- Witness for C2: the concrete 17-character VIN submission is accepted,
and the decode success lands on Step 4 carrying the decoded vehicle. -/
theorem c2_vin_decode_success_witness :
    (step exScreen2 Event.submitVin).isSome = true
    ∧ (exAfterDecode.screen = 4 ∧ exAfterDecode.vehicleData = exVehicle) :=
  ⟨(c2_vin_decode_success exScreen2 exVehicle).1 rfl rfl (by decide),
   (c2_vin_decode_success exDecodePending exVehicle).2 exAfterDecode rfl⟩

/-- C4 (amended reading of "empty" as JS falsiness, which on the string
values produced by the screen-3 inputs is exactly emptiness): a manual
vehicle submission sets the error message to "Please fill in all fields."
and leaves the step unchanged iff some field is falsy; with all three
fields non-falsy it clears the message and moves to Step 4. -/
theorem c4_manual_vehicle_submit (s t : AppState)
    (h : step s Event.submitManualVehicle = some t) :
    ((t.errorMsg = "Please fill in all fields." ∧ t.screen = s.screen) ↔
      (s.vehicleData.year.falsy = true ∨ s.vehicleData.make.falsy = true
        ∨ s.vehicleData.model.falsy = true))
    ∧ ((s.vehicleData.year.falsy = false ∧ s.vehicleData.make.falsy = false
        ∧ s.vehicleData.model.falsy = false) →
      t.errorMsg = "" ∧ t.screen = 4) := by
  simp only [step] at h
  split_ifs at h with hscr hf
  · cases h
    simp only [Bool.or_eq_true] at hf
    refine ⟨⟨fun _ => by tauto, fun _ => ⟨rfl, rfl⟩⟩, ?_⟩
    intro hall
    rcases hall with ⟨hy, hm, hmo⟩
    rcases hf with (hf | hf) | hf <;> simp_all
  · cases h
    simp only [Bool.or_eq_true, not_or, Bool.not_eq_true] at hf
    refine ⟨⟨fun hleft => absurd hleft.1 (by simp), fun hr => ?_⟩,
            fun _ => ⟨rfl, rfl⟩⟩
    rcases hr with hr | hr | hr <;> simp_all

/-- Witness for C4 at the concrete all-empty manual-entry state. -/
theorem c4_manual_vehicle_submit_witness :
    ((((step exScreen3 Event.submitManualVehicle).getD init).errorMsg
        = "Please fill in all fields."
      ∧ ((step exScreen3 Event.submitManualVehicle).getD init).screen
        = exScreen3.screen) ↔
      (exScreen3.vehicleData.year.falsy = true
        ∨ exScreen3.vehicleData.make.falsy = true
        ∨ exScreen3.vehicleData.model.falsy = true)) :=
  (c4_manual_vehicle_submit exScreen3
    ((step exScreen3 Event.submitManualVehicle).getD init) rfl).1

/-- C3 (amended): a VIN-decode failure that immediately follows its
submission — no other completion interleaved, which is only possible via an
outstanding pathway-generation request — lands on Step 3 with `vehicleData`
unchanged from before the submission and an empty error message. -/
theorem c3_decode_failure_immediate (s s1 t : AppState)
    (h1 : step s Event.submitVin = some s1)
    (h2 : step s1 Event.vinFailure = some t) :
    t.screen = 3 ∧ t.vehicleData = s.vehicleData ∧ t.errorMsg = "" := by
  simp only [step] at h1 h2
  split_ifs at h1
  cases h1
  split_ifs at h2
  cases h2
  simp

/-- Witness for C3 (amended) at the concrete screen-2 submission. -/
theorem c3_decode_failure_immediate_witness :
    ((step exDecodePending Event.vinFailure).getD init).screen = 3
    ∧ ((step exDecodePending Event.vinFailure).getD init).vehicleData
        = exScreen2.vehicleData
    ∧ ((step exDecodePending Event.vinFailure).getD init).errorMsg = "" :=
  c3_decode_failure_immediate exScreen2 exDecodePending
    ((step exDecodePending Event.vinFailure).getD init) rfl rfl

/-- C5 (amended): a pathway-generation failure that immediately follows its
triggering — no other completion interleaved, which is only possible via a
second outstanding request — lands on Step 6 with the error message exactly
"Failed to generate pathway." and `pathway` unchanged from before the
call. -/
theorem c5_generate_failure_immediate (s s1 t : AppState)
    (h1 : step s Event.generate = some s1)
    (h2 : step s1 Event.genFailure = some t) :
    t.screen = 6 ∧ t.errorMsg = "Failed to generate pathway."
      ∧ t.pathway = s.pathway := by
  simp only [step] at h1 h2
  split_ifs at h1
  cases h1
  split_ifs at h2
  cases h2
  simp

/-- Witness for C5 (amended) at the concrete screen-6 review state, whose
`pathway` is still `none`. -/
theorem c5_generate_failure_immediate_witness :
    ((step exScreen8 Event.genFailure).getD init).screen = 6
    ∧ ((step exScreen8 Event.genFailure).getD init).errorMsg
        = "Failed to generate pathway."
    ∧ ((step exScreen8 Event.genFailure).getD init).pathway
        = exScreen6.pathway :=
  c5_generate_failure_immediate exScreen6 exScreen8
    ((step exScreen8 Event.genFailure).getD init) (by rfl) (by rfl)

/-- C8: "Process next vehicle" from Step 9 returns to Step 1 and leaves the
vehicle record, the material composition and the pathway untouched. -/
theorem c8_process_next_frame (s t : AppState)
    (h : step s Event.processNext = some t) :
    t.screen = 1 ∧ t.vehicleData = s.vehicleData
      ∧ t.materials = s.materials ∧ t.pathway = s.pathway := by
  simp only [step] at h
  split_ifs at h
  cases h
  simp

/-- Witness for C8 at a concrete Step-9 state. -/
theorem c8_process_next_frame_witness :
    ((step { init with screen := 9 } Event.processNext).getD init).screen = 1
    ∧ ((step { init with screen := 9 } Event.processNext).getD init).vehicleData
        = ({ init with screen := 9 } : AppState).vehicleData
    ∧ ((step { init with screen := 9 } Event.processNext).getD init).materials
        = ({ init with screen := 9 } : AppState).materials
    ∧ ((step { init with screen := 9 } Event.processNext).getD init).pathway
        = ({ init with screen := 9 } : AppState).pathway :=
  c8_process_next_frame { init with screen := 9 }
    ((step { init with screen := 9 } Event.processNext).getD init) rfl

/-- C10: both decode completions reset `isLoading` to `false` (the
`finally` block), and the submit button is disabled exactly when the flag
is set or the VIN is shorter than 5 characters. -/
theorem c10_loading_reset_and_disabled (s : AppState) :
    (∀ (payload : Vehicle) (t : AppState),
      step s (Event.vinSuccess payload) = some t → t.isLoading = false)
    ∧ (∀ t : AppState, step s Event.vinFailure = some t → t.isLoading = false)
    ∧ (vinSubmitDisabled s = true ↔ (s.isLoading = true ∨ s.vin.length < 5)) := by
  refine ⟨?_, ?_, ?_⟩
  · intro payload t h
    simp only [step] at h
    split_ifs at h
    cases h
    rfl
  · intro t h
    simp only [step] at h
    split_ifs at h
    cases h
    rfl
  · simp [vinSubmitDisabled]

/-- Witness for C10 at the concrete in-flight decode state. -/
theorem c10_loading_reset_and_disabled_witness :
    exAfterDecode.isLoading = false
    ∧ (vinSubmitDisabled exDecodePending = true ↔
        (exDecodePending.isLoading = true ∨ exDecodePending.vin.length < 5)) :=
  ⟨(c10_loading_reset_and_disabled exDecodePending).1 exVehicle exAfterDecode rfl,
   (c10_loading_reset_and_disabled exDecodePending).2.2⟩

lemma isDecode_false_of_isGen {r : Req} (h : r.isGen = true) :
    r.isDecode = false := by
  cases r <;> simp_all [Req.isGen, Req.isDecode]

lemma decode_inv_frame {s t : AppState}
    (hp : t.pending = s.pending) (hl : t.isLoading = s.isLoading)
    (hle : decodeCount s ≤ 1)
    (hiff : s.isLoading = true ↔ decodeCount s = 1) :
    decodeCount t ≤ 1 ∧ (t.isLoading = true ↔ decodeCount t = 1) := by
  unfold decodeCount at *
  rw [hp, hl]
  exact ⟨hle, hiff⟩

lemma decode_inv_complete {s t : AppState}
    (hany : s.pending.any Req.isDecode = true)
    (hp : t.pending = removeFirst Req.isDecode s.pending)
    (hl : t.isLoading = false)
    (hle : decodeCount s ≤ 1) :
    decodeCount t ≤ 1 ∧ (t.isLoading = true ↔ decodeCount t = 1) := by
  have h1 := countP_pos_of_any hany
  have h2 := countP_removeFirst_self Req.isDecode s.pending hany
  unfold decodeCount at *
  rw [hp, hl, h2]
  refine ⟨by omega, ?_, ?_⟩
  · intro hf
    cases hf
  · intro hf
    omega

lemma decode_inv_gen_remove {s t : AppState}
    (hp : t.pending = removeFirst Req.isGen s.pending)
    (hl : t.isLoading = s.isLoading)
    (hle : decodeCount s ≤ 1)
    (hiff : s.isLoading = true ↔ decodeCount s = 1) :
    decodeCount t ≤ 1 ∧ (t.isLoading = true ↔ decodeCount t = 1) := by
  have h2 := countP_removeFirst_other Req.isGen Req.isDecode
    (fun r hr => isDecode_false_of_isGen hr) s.pending
  unfold decodeCount at *
  rw [hp, hl, h2]
  exact ⟨hle, hiff⟩

lemma step_decode_inv {s t : AppState} {e : Event}
    (h : step s e = some t)
    (hle : decodeCount s ≤ 1)
    (hiff : s.isLoading = true ↔ decodeCount s = 1) :
    decodeCount t ≤ 1 ∧ (t.isLoading = true ↔ decodeCount t = 1) := by
  cases e with
  | submitVin =>
      simp only [step] at h
      split_ifs at h with hc
      cases h
      have hload : s.isLoading = false := by
        have h2 := hc.2
        simp only [vinSubmitDisabled, Bool.or_eq_false_iff] at h2
        exact h2.1
      have hcount : decodeCount s = 0 := by
        rcases Nat.eq_or_lt_of_le hle with h' | h'
        · rw [hiff.mpr h'] at hload
          cases hload
        · omega
      unfold decodeCount at *
      constructor
      · simp [List.countP_append, List.countP_cons, Req.isDecode, hcount]
      · simp [List.countP_append, List.countP_cons, Req.isDecode, hcount]
  | vinSuccess payload =>
      simp only [step] at h
      split_ifs at h with hc
      cases h
      exact decode_inv_complete hc rfl rfl hle
  | vinFailure =>
      simp only [step] at h
      split_ifs at h with hc
      cases h
      exact decode_inv_complete hc rfl rfl hle
  | genSuccess payload =>
      simp only [step] at h
      split_ifs at h with hc
      cases h
      exact decode_inv_gen_remove rfl rfl hle hiff
  | genFailure =>
      simp only [step] at h
      split_ifs at h with hc
      cases h
      exact decode_inv_gen_remove rfl rfl hle hiff
  | generate =>
      simp only [step] at h
      split_ifs at h with hc
      cases h
      have happ : decodeCount
          { s with screen := 8
                   pending :=
                     s.pending ++ [.genPathway s.vehicleData s.materials] }
          = decodeCount s := by
        unfold decodeCount
        simp [List.countP_append, List.countP_cons, Req.isDecode]
      rw [happ]
      exact ⟨hle, hiff⟩
  | back =>
      simp only [step] at h
      split_ifs at h
      cases h
      exact decode_inv_frame rfl rfl hle hiff
  | startWizard =>
      simp only [step] at h
      split_ifs at h
      cases h
      exact decode_inv_frame rfl rfl hle hiff
  | setVin v =>
      simp only [step] at h
      split_ifs at h
      cases h
      exact decode_inv_frame rfl rfl hle hiff
  | setYear v =>
      simp only [step] at h
      split_ifs at h
      cases h
      exact decode_inv_frame rfl rfl hle hiff
  | setMake v =>
      simp only [step] at h
      split_ifs at h
      cases h
      exact decode_inv_frame rfl rfl hle hiff
  | setModel v =>
      simp only [step] at h
      split_ifs at h
      cases h
      exact decode_inv_frame rfl rfl hle hiff
  | submitManualVehicle =>
      simp only [step] at h
      split_ifs at h <;> (cases h; exact decode_inv_frame rfl rfl hle hiff)
  | confirmYes =>
      simp only [step] at h
      split_ifs at h
      cases h
      exact decode_inv_frame rfl rfl hle hiff
  | confirmNo =>
      simp only [step] at h
      split_ifs at h
      cases h
      exact decode_inv_frame rfl rfl hle hiff
  | chooseAI =>
      simp only [step] at h
      split_ifs at h
      cases h
      exact decode_inv_frame rfl rfl hle hiff
  | chooseManual =>
      simp only [step] at h
      split_ifs at h
      cases h
      exact decode_inv_frame rfl rfl hle hiff
  | editValues =>
      simp only [step] at h
      split_ifs at h
      cases h
      exact decode_inv_frame rfl rfl hle hiff
  | setMaterial k v =>
      simp only [step] at h
      split_ifs at h
      cases h
      exact decode_inv_frame rfl rfl hle hiff
  | saveMaterials =>
      simp only [step] at h
      split_ifs at h
      cases h
      exact decode_inv_frame rfl rfl hle hiff
  | processNext =>
      simp only [step] at h
      split_ifs at h
      cases h
      exact decode_inv_frame rfl rfl hle hiff

lemma reachable_decode_inv {s : AppState} (h : Reachable s) :
    decodeCount s ≤ 1 ∧ (s.isLoading = true ↔ decodeCount s = 1) := by
  induction h with
  | base => simp [decodeCount, init]
  | tail _ hstep ih => exact step_decode_inv hstep ih.1 ih.2

/-- C9 (amended): at most one VIN-decode request is ever outstanding — the
`isLoading` flag holds exactly when one is in flight, and it disables the
only control that issues one.  Pathway generation has no such guard; see
the counterexample for two simultaneously outstanding requests. -/
theorem c9_at_most_one_decode (s : AppState) (h : Reachable s) :
    decodeCount s ≤ 1 ∧ (s.isLoading = true ↔ decodeCount s = 1) :=
  reachable_decode_inv h

/-- Witness for C9 (amended) at the initial state. -/
theorem c9_at_most_one_decode_witness :
    decodeCount init ≤ 1 ∧ (init.isLoading = true ↔ decodeCount init = 1) :=
  c9_at_most_one_decode init Reachable.base

/-- The full concrete success run of spec §8 property 6: reach the review
screen, generate, and receive the mocked two-entry pathway. -/
def c6Trace : List Event :=
  toScreen6 ++ [Event.generate, Event.genSuccess exPathway]

/-- The state at the end of `c6Trace`. -/
def c6Final : AppState :=
  (run init c6Trace).getD init

/-- C6: on the concrete run with vehicle {2015, Toyota, Camry} and
materials {Steel 60, Aluminum 10, Copper 5, Plastics 15, Rubber 5,
Glass 5}, the generation request carries exactly that payload, and the
mocked success response [{1, Dismantle, 120.50}, {2, Shred, -30.00}] lands
on Step 9 with `pathway` equal to that array and a displayed total net
profit of 90.50 (= 181/2). -/
theorem c6_pathway_success_scenario :
    (run init (toScreen6 ++ [Event.generate])).map AppState.pending
        = some [Req.genPathway exVehicle exMaterials]
    ∧ run init c6Trace = some c6Final
    ∧ c6Final.screen = 9
    ∧ c6Final.pathway = some exPathway
    ∧ totalProfit (c6Final.pathway.getD []) = 181 / 2 := by
  refine ⟨by rfl, by rfl, by rfl, by rfl, ?_⟩
  have hp : c6Final.pathway.getD [] = exPathway := by rfl
  rw [hp]
  norm_num [totalProfit, exPathway]

/-- C7 (amended): on the Step-8 loading screen the only accepted user
interaction is Back (the Back button is rendered because `screen > 1`),
which lands on Step 7; every other user control is absent or disabled. -/
theorem c7_loading_screen_only_back (s t : AppState) (e : Event)
    (hscreen : s.screen = 8) (huser : e.isUser = true)
    (h : step s e = some t) :
    e = Event.back ∧ t.screen = 7 := by
  cases e with
  | back =>
      simp only [step] at h
      split_ifs at h with hc
      · cases h
        refine ⟨rfl, ?_⟩
        show s.screen - 1 = 7
        omega
  | startWizard =>
      simp only [step] at h
      split_ifs at h with hc
      · omega
  | setVin v =>
      simp only [step] at h
      split_ifs at h with hc
      · exact absurd hc.1 (by omega)
  | submitVin =>
      simp only [step] at h
      split_ifs at h with hc
      · exact absurd hc.1 (by omega)
  | vinSuccess payload => exact Bool.noConfusion huser
  | vinFailure => exact Bool.noConfusion huser
  | setYear v =>
      simp only [step] at h
      split_ifs at h with hc
      · omega
  | setMake v =>
      simp only [step] at h
      split_ifs at h with hc
      · omega
  | setModel v =>
      simp only [step] at h
      split_ifs at h with hc
      · omega
  | submitManualVehicle =>
      simp only [step] at h
      split_ifs at h with hc hf
      · omega
      · omega
  | confirmYes =>
      simp only [step] at h
      split_ifs at h with hc
      · omega
  | confirmNo =>
      simp only [step] at h
      split_ifs at h with hc
      · omega
  | chooseAI =>
      simp only [step] at h
      split_ifs at h with hc
      · omega
  | chooseManual =>
      simp only [step] at h
      split_ifs at h with hc
      · omega
  | generate =>
      simp only [step] at h
      split_ifs at h with hc
      · omega
  | editValues =>
      simp only [step] at h
      split_ifs at h with hc
      · omega
  | setMaterial k v =>
      simp only [step] at h
      split_ifs at h with hc
      · omega
  | saveMaterials =>
      simp only [step] at h
      split_ifs at h with hc
      · omega
  | processNext =>
      simp only [step] at h
      split_ifs at h with hc
      · omega
  | genSuccess payload => exact Bool.noConfusion huser
  | genFailure => exact Bool.noConfusion huser

/-- Witness for C7 (amended) at the concrete loading state. -/
theorem c7_loading_screen_only_back_witness :
    Event.back = Event.back
    ∧ ((step exScreen8 Event.back).getD init).screen = 7 :=
  c7_loading_screen_only_back exScreen8
    ((step exScreen8 Event.back).getD init) Event.back (by rfl) rfl (by rfl)

/-- Counterexample to C7 as stated: the loading state reached by
generating a pathway from the review screen is on Step 8 with the request
still outstanding, yet the Back interaction is enabled there (`Container`
renders the Back button since `screen > 1`, App.jsx lines 79 and 484). -/
theorem c7_counterexample :
    Reachable exScreen8
    ∧ exScreen8.screen = 8
    ∧ exScreen8.pending.countP Req.isGen = 1
    ∧ (step exScreen8 Event.back).isSome = true := by
  refine ⟨?_, by rfl, by rfl, by rfl⟩
  have h6 : run init toScreen6 = some exScreen6 := by rfl
  have h8 : step exScreen6 Event.generate = some exScreen8 := by rfl
  exact Reachable.tail (reachable_of_run Reachable.base h6) h8

/-- Events leading to the state just before an interleaved decode failure:
start a pathway generation, navigate Back from the loading screen all the
way to the VIN screen, submit the VIN again (both requests are now
outstanding), and let the pathway generation fail first. -/
def c3Trace : List Event :=
  toScreen6 ++
    [Event.generate, Event.back, Event.back, Event.back, Event.back,
     Event.back, Event.back, Event.submitVin, Event.genFailure]

/-- The reachable state with a VIN decode still outstanding and the error
message already set by the interleaved pathway-generation failure. -/
def c3Pre : AppState :=
  (run init c3Trace).getD init

/-- The state produced by the decode failure from `c3Pre`. -/
def c3Post : AppState :=
  (step c3Pre Event.vinFailure).getD init

/-- Counterexample to C3 as stated: along `c3Trace` a VIN submission's
decode fails while a pathway-generation failure completed in between
(possible because pathway generation has no in-flight guard), so the state
resulting from the decode failure is Step 3 but carries the non-empty
error message "Failed to generate pathway." rather than an empty one. -/
theorem c3_counterexample :
    Reachable c3Pre
    ∧ c3Pre.pending.any Req.isDecode = true
    ∧ step c3Pre Event.vinFailure = some c3Post
    ∧ c3Post.screen = 3
    ∧ c3Post.errorMsg = "Failed to generate pathway."
    ∧ ¬ c3Post.errorMsg = "" := by
  refine ⟨?_, by rfl, by rfl, by rfl, by rfl, by decide⟩
  have hrun : run init c3Trace = some c3Pre := by rfl
  exact reachable_of_run Reachable.base hrun

/-- Events reaching the review screen again with the first
pathway-generation request still outstanding. -/
def c5Prefix : List Event :=
  toScreen6 ++ [Event.generate, Event.back, Event.saveMaterials]

/-- The reachable review-screen state with one generation outstanding and
`pathway` still `none`. -/
def c5Mid : AppState :=
  (run init c5Prefix).getD init

/-- The state after triggering a second generation from `c5Mid`, letting
the first request succeed and the second fail. -/
def c5Final : AppState :=
  (run c5Mid [Event.generate, Event.genSuccess exPathway,
              Event.genFailure]).getD init

/-- Counterexample to C5 as stated: from `c5Mid` (where `pathway` is
`none`) a second generation request is triggered; the first outstanding
request then succeeds and the second fails.  The state resulting from that
failure has Step 6 and the exact error message, but its `pathway` is the
first response rather than the `none` it held before the failing call —
possible because pathway generation has no in-flight guard. -/
theorem c5_counterexample :
    Reachable c5Mid
    ∧ c5Mid.screen = 6
    ∧ c5Mid.pathway = none
    ∧ run c5Mid [Event.generate, Event.genSuccess exPathway, Event.genFailure]
        = some c5Final
    ∧ c5Final.screen = 6
    ∧ c5Final.errorMsg = "Failed to generate pathway."
    ∧ c5Final.pathway = some exPathway
    ∧ ¬ c5Final.pathway = c5Mid.pathway := by
  refine ⟨?_, by rfl, by rfl, by rfl, by rfl, by rfl, by rfl, by decide⟩
  have hrun : run init c5Prefix = some c5Mid := by rfl
  exact reachable_of_run Reachable.base hrun

/-- Events reaching a state with one pathway generation and one VIN decode
simultaneously outstanding. -/
def c9Trace : List Event :=
  toScreen6 ++
    [Event.generate, Event.back, Event.back, Event.back, Event.back,
     Event.back, Event.back, Event.submitVin]

/-- The reachable state with two requests simultaneously in flight. -/
def c9State : AppState :=
  (run init c9Trace).getD init

/-- Counterexample to C9 as stated: a reachable state in which a
pathway-generation request and a VIN-decode request are simultaneously
outstanding — the user navigates Back from the loading screen to the VIN
screen (the decode in-flight flag is false) and submits again while the
generation request is still pending. -/
theorem c9_counterexample :
    Reachable c9State
    ∧ c9State.pending.countP Req.isDecode = 1
    ∧ c9State.pending.countP Req.isGen = 1
    ∧ c9State.pending.length = 2 := by
  refine ⟨?_, by rfl, by rfl, by rfl⟩
  have hrun : run init c9Trace = some c9State := by rfl
  exact reachable_of_run Reachable.base hrun
